import Mathlib

/-!
Shallow embedding of the portfolio-chatbot backend (`app.py`, `test.py`):
the keyword context extractor `search_portfolio_data`, the image lister
`get_image_paths`, the answer generator `generate_response_with_gemini` with
its fallback `generate_fallback_response`, the startup initializer
`initialize_app`, the `/health` handler and the `/chat` handler, and the
embedding matcher `find_similar_content`.

Python strings are modelled as Lean `String`; CPython's ASCII-relevant
behaviour of `str.lower`, `str.strip`, `str.title`, `str.replace` and
substring tests is reproduced on `Char` lists.  Python dicts that the code
reads with `.get(key, default)` are modelled as structures whose fields hold
the default when the key is absent.  The on-disk image folders are a
`FileSystem` value: a directory-existence test and a directory listing.
-/

namespace Portfolio

open scoped List

/-- Python `needle in hay` on strings: contiguous-substring containment. -/
def strIn (needle hay : String) : Bool := decide (needle.data <:+: hay.data)

/-- Python `s.lower()` (ASCII case mapping, as `Char.toLower`). -/
def pyLower (s : String) : String := ⟨s.data.map Char.toLower⟩

/-- Python `s.replace(a, b)` for single characters `a`, `b`. -/
def pyReplaceChar (s : String) (a b : Char) : String :=
  ⟨s.data.map (fun c => if c = a then b else c)⟩

/-- The characters Python `str.strip()` removes (ASCII whitespace). -/
def pyIsSpace (c : Char) : Bool :=
  c = ' ' || c = '\t' || c = '\n' || c = '\r' || c = '\x0b' || c = '\x0c'

/-- Python `s.strip()`: drop leading and trailing whitespace. -/
def pyStrip (s : String) : String :=
  ⟨((s.data.dropWhile pyIsSpace).reverse.dropWhile pyIsSpace).reverse⟩

/-- Helper for `pyTitle`: `prevAlpha` records whether the previous character
was alphabetic (Python tracks whether it is inside a word). -/
def pyTitleAux : List Char → Bool → List Char
  | [], _ => []
  | c :: cs, prevAlpha =>
    (if c.isAlpha then (if prevAlpha then c.toLower else c.toUpper) else c)
      :: pyTitleAux cs c.isAlpha

/-- Python `s.title()`: first letter of each alphabetic run upper-cased,
the rest lower-cased. -/
def pyTitle (s : String) : String := ⟨pyTitleAux s.data false⟩

/-- Python `sep.join(xs)`. -/
def pyJoin (sep : String) (xs : List String) : String := String.intercalate sep xs

/-- Python `sorted(xs)` on strings (lexicographic by code point).  CPython's
sort is stable; `≤` on strings is total and antisymmetric, so the sorted
result is unique and an insertion sort computes it. -/
def pySorted (xs : List String) : List String :=
  List.insertionSort (fun a b => a ≤ b) xs

/-- Helper for `pyDedup`: walk the list keeping each element not yet seen,
accumulating the seen ones — exactly how `dict.fromkeys` builds its keys. -/
def pyDedupAux {α : Type} [DecidableEq α] : List α → List α → List α
  | [], _ => []
  | x :: xs, seen =>
      if x ∈ seen then pyDedupAux xs seen
      else x :: pyDedupAux xs (x :: seen)

/-- Model of `list(dict.fromkeys(l))`: keep the first occurrence of each
element, in first-occurrence order (CPython dicts preserve insertion order
and re-inserting an existing key does not move it). -/
def pyDedup {α : Type} [DecidableEq α] (l : List α) : List α := pyDedupAux l []

/-- Model of `list(set(l))` for the section tags.  CPython's set iteration
order is unspecified; only membership in the result is ever relied on, and we
model the resulting list as the first-occurrence deduplication, which has
exactly the same members. -/
def pyListSet (l : List String) : List String := pyDedup l

/-- CPython `pathlib.PurePath.suffix` of a file name: the last dot and what
follows it, provided the dot is neither the first nor the last character. -/
def pathSuffix (name : String) : String :=
  let cs := name.data
  if '.' ∈ cs then
    let i := cs.length - 1 - cs.reverse.indexOf '.'
    if 0 < i ∧ i < cs.length - 1 then ⟨cs.drop i⟩ else ""
  else ""

/-- The extension set of `get_image_paths`. -/
def imageExtensions : List String := [".jpg", ".jpeg", ".png", ".gif", ".webp"]

/-- `file_path.suffix.lower() in image_extensions`. -/
def isImageFile (name : String) : Bool := pyLower (pathSuffix name) ∈ imageExtensions

/-- One entry of a directory listing (`Path.iterdir`): a file name and the
`is_file()` flag. -/
structure DirEntry where
  name : String
  isFile : Bool
deriving DecidableEq

/-- The on-disk state `get_image_paths` reads: for a section
(`"projects"` / `"hackathons"`) and a subfolder, whether the directory exists
and its entries. -/
structure FileSystem where
  dirExists : String → String → Bool
  listDir : String → String → List DirEntry

/-- `get_image_paths(section, subfolder)` from `app.py`: empty when the
directory is missing, else the sorted list of `"/<section>/<subfolder>/<name>"`
paths of the regular files whose lower-cased suffix is an image extension. -/
def get_image_paths (fs : FileSystem) (sec subfolder : String) : List String :=
  if fs.dirExists sec subfolder then
    pySorted ((fs.listDir sec subfolder).filterMap (fun e =>
      if e.isFile && isImageFile e.name then
        some ("/" ++ sec ++ "/" ++ subfolder ++ "/" ++ e.name)
      else none))
  else []

/-! ## The profile document (`sreedata.json` as `search_portfolio_data` reads it)

Each structure field holds the value `data.get(key, default)` yields: a plain
`String`/`List` field models a key read with an empty-string/empty-list
default; an `Option` field models a key whose Python truthiness is tested
(`None`/absent/empty ↦ `none`). -/

structure Contact where
  email : String
  phone : String
  location : String
deriving DecidableEq

structure ExperienceSummary where
  yearsExperience : String
  projectsCompleted : String
  technologiesKnown : String
  hackathonsParticipated : String
deriving DecidableEq

structure WorkExperience where
  role : String
  type_ : String
  company : String
  years : String
  location : String
  achievements : List String
  technologies : List String
deriving DecidableEq

structure Education where
  degree : String
  qualification : String
  field : String
  institution : String
  years : String
  grade : String
  achievements : List String
deriving DecidableEq

structure Certification where
  name : String
  issuer : String
  year : String
deriving DecidableEq

structure Project where
  name : String
  category : String
  description : String
  duration : String
  teamSize : String
  technologies : List String
  features : List String
  githubLink : String
  deploymentLink : String
deriving DecidableEq

structure HackathonEvent where
  event : String
  result : String
  monthYear : String
  host : String
  teamSize : String
  technologies : List String
  awards : List String
  members : List String
deriving DecidableEq

/-- The `hackathons` key is either a JSON object (with summary fields and an
`events` list) or a plain list of events; `search_portfolio_data` branches on
`isinstance(hackathons_data, dict)`.  The `dict` constructor models a
non-empty JSON object. -/
inductive HackathonsData where
  | dict (totalParticipated winsOrTopPlaces teamMembers : String)
      (events : List HackathonEvent)
  | list (events : List HackathonEvent)
deriving DecidableEq

/-- The events the hackathon loop iterates over: `events` of the object form,
the list itself otherwise. -/
def HackathonsData.events : HackathonsData → List HackathonEvent
  | .dict _ _ _ es => es
  | .list es => es

structure PortfolioData where
  name : String
  title : String
  experienceSummary : Option ExperienceSummary
  contact : Option Contact
  skills : List (String × List (String × String))
  technologies : List String
  proficiencyLegend : List (String × String)
  workExperience : List WorkExperience
  education : List Education
  certifications : List Certification
  projects : List Project
  hackathons : HackathonsData
deriving DecidableEq

/-! ## Keyword buckets of `search_portfolio_data` -/

def basicInfoKeywords : List String :=
  ["name", "summary", "title", "quote", "about", "intro"]

def contactKeywords : List String :=
  ["contact", "email", "phone", "location", "reach"]

def skillsKeywords : List String :=
  ["skill", "technology", "programming", "frontend", "backend", "database",
   "tools", "mobile"]

def experienceKeywords : List String :=
  ["experience", "work", "job", "company", "maq", "career", "role"]

def educationKeywords : List String :=
  ["education", "degree", "university", "college", "qualification"]

def certificationKeywords : List String :=
  ["certification", "certificate", "aws", "react", "python", "course"]

def projectKeywords : List String :=
  ["project", "agrivision", "health-buddy", "study-buddy", "sarthi",
   "suraksha", "code-off-duty"]

def hackathonKeywords : List String :=
  ["hackathon", "devfest", "arena", "microsoft", "code", "contest",
   "competition", "kriyeta", "build-a-thon"]

/-- `any(word in query_lower for word in keywords)`. -/
def anyKeywordIn (keywords : List String) (queryLower : String) : Bool :=
  keywords.any (fun w => strIn w queryLower)

/-- `project_folder_mappings`, in insertion order. -/
def project_folder_mappings : List (String × String) :=
  [("agrivision", "agrivision"),
   ("health-buddy", "health-buddy"),
   ("health buddy", "health-buddy"),
   ("study-buddy", "study-buddy"),
   ("study buddy", "study-buddy"),
   ("sarthi", "sarthi"),
   ("suraksha", "surasksha-suchak"),
   ("code-off-duty", "code-off-duty"),
   ("code off duty", "code-off-duty")]

/-- `hackathon_folder_mappings`, in insertion order. -/
def hackathon_folder_mappings : List (String × String) :=
  [("devfest", "devfest"),
   ("microsoft", "microsoft"),
   ("kriyeta", "kriyeta3.0"),
   ("build-a-thon", "build-a-thon"),
   ("build a thon", "build-a-thon"),
   ("code-a-haunt", "code-a-haunt"),
   ("code a haunt", "code-a-haunt"),
   ("arena", "arena"),
   ("code-of-duty", "code-of-duty"),
   ("code of duty", "code-of-duty"),
   ("coding blocks", "codingblockslpu"),
   ("codingblocks", "codingblockslpu")]

/-- The `for keyword, folder in mappings.items(): if keyword in query_lower or
keyword in name_lower: …; break` loop: the folder of the first matching
keyword, if any. -/
def firstFolder (mappings : List (String × String))
    (queryLower nameLower : String) : Option String :=
  (mappings.find? (fun kv => strIn kv.1 queryLower || strIn kv.1 nameLower)).map
    Prod.snd

/-! ## Context lines per bucket -/

def basicInfoContext (d : PortfolioData) : List String :=
  ["Name: " ++ d.name, "Title: " ++ d.title] ++
    (match d.experienceSummary with
     | some es =>
         ["Experience Summary: " ++ es.yearsExperience ++ " years experience",
          "Projects Completed: " ++ es.projectsCompleted,
          "Technologies Known: " ++ es.technologiesKnown,
          "Hackathons Participated: " ++ es.hackathonsParticipated]
     | none => [])

def contactContext (d : PortfolioData) : List String :=
  ["Email: " ++ (d.contact.map Contact.email).getD "",
   "Phone: " ++ (d.contact.map Contact.phone).getD "",
   "Location: " ++ (d.contact.map Contact.location).getD ""]

def skillsContext (d : PortfolioData) : List String :=
  (if d.technologies.isEmpty then []
   else ["Main Technologies: " ++ pyJoin ", " d.technologies]) ++
  d.skills.map (fun cd =>
    pyTitle (pyReplaceChar cd.1 '_' ' ') ++ ": " ++
      pyJoin ", " (cd.2.map (fun sp => sp.1 ++ " (" ++ sp.2 ++ ")"))) ++
  (if d.proficiencyLegend.isEmpty then []
   else ["Proficiency Legend: " ++
     pyJoin ", " (d.proficiencyLegend.map (fun lr => lr.1 ++ ": " ++ lr.2))])

def experienceContext (d : PortfolioData) : List String :=
  d.workExperience.flatMap (fun exp =>
    ["Role: " ++ exp.role ++ " (" ++ exp.type_ ++ ") at " ++ exp.company,
     "Duration: " ++ exp.years ++ ", Location: " ++ exp.location] ++
    (if exp.achievements.isEmpty then []
     else ["Achievements: " ++ pyJoin ", " exp.achievements]) ++
    (if exp.technologies.isEmpty then []
     else ["Technologies Used: " ++ pyJoin ", " exp.technologies]))

def educationContext (d : PortfolioData) : List String :=
  d.education.flatMap (fun edu =>
    -- `degree = edu.get('degree') or edu.get('qualification', '')`
    let degree := if edu.degree = "" then edu.qualification else edu.degree
    ["Education: " ++ degree ++ " in " ++ edu.field ++ " from " ++
       edu.institution ++ " (" ++ edu.years ++ ")"] ++
    (if edu.grade = "" then [] else ["Grade: " ++ edu.grade]) ++
    (if edu.achievements.isEmpty then []
     else ["Achievements: " ++ pyJoin ", " edu.achievements]))

def certificationsContext (d : PortfolioData) : List String :=
  d.certifications.map (fun cert =>
    "Certification: " ++ cert.name ++ " by " ++ cert.issuer ++ " (" ++
      cert.year ++ ")")

def projectsContext (d : PortfolioData) : List String :=
  d.projects.flatMap (fun p =>
    ["Project: " ++ p.name ++ " (" ++ p.category ++ ")",
     "Description: " ++ p.description,
     "Duration: " ++ p.duration ++ ", Team Size: " ++ p.teamSize] ++
    (if p.technologies.isEmpty then []
     else ["Technologies: " ++ pyJoin ", " p.technologies]) ++
    (if p.features.isEmpty then []
     else ["Features: " ++ pyJoin ", " p.features]) ++
    (if p.githubLink = "" then [] else ["GitHub: " ++ p.githubLink]) ++
    (if p.deploymentLink = "" then []
     else ["Live Demo: " ++ p.deploymentLink]))

def hackathonEventContext (h : HackathonEvent) : List String :=
  ["Hackathon: " ++ h.event,
   "Result: " ++ h.result ++ " (" ++ h.monthYear ++ ")",
   "Host: " ++ h.host ++ ", Team Size: " ++ h.teamSize] ++
  (if h.technologies.isEmpty then []
   else ["Technologies: " ++ pyJoin ", " h.technologies]) ++
  (if h.awards.isEmpty then [] else ["Awards: " ++ pyJoin ", " h.awards]) ++
  (if h.members.isEmpty then []
   else ["Team Members: " ++ pyJoin ", " h.members])

def hackathonsContext (d : PortfolioData) : List String :=
  (match d.hackathons with
   | .dict tp wins tm _ =>
       ["Total Hackathons Participated: " ++ tp,
        "Wins/Top Places: " ++ wins,
        "Team Members Worked With: " ++ tm]
   | .list _ => []) ++
  d.hackathons.events.flatMap hackathonEventContext

/-! ## Image collection per bucket -/

/-- The images the project loop extends: per project, the first matching
alias of `project_folder_mappings` (against the query or the project's
lower-cased hyphenated name) resolves a folder whose listing is appended. -/
def projectsImagesRaw (fs : FileSystem) (queryLower : String)
    (d : PortfolioData) : List String :=
  d.projects.flatMap (fun p =>
    let nameLower := pyReplaceChar (pyLower p.name) ' ' '-'
    match firstFolder project_folder_mappings queryLower nameLower with
    | some folder => get_image_paths fs "projects" folder
    | none => [])

/-- The images the hackathon loop extends, analogously. -/
def hackathonsImagesRaw (fs : FileSystem) (queryLower : String)
    (d : PortfolioData) : List String :=
  d.hackathons.events.flatMap (fun h =>
    let eventLower := pyReplaceChar (pyLower h.event) ' ' '-'
    match firstFolder hackathon_folder_mappings queryLower eventLower with
    | some folder => get_image_paths fs "hackathons" folder
    | none => [])

/-- The full `images` list as collected before deduplication: the project
bucket's contribution followed by the hackathon bucket's. -/
def searchImagesRaw (fs : FileSystem) (query : String)
    (d : PortfolioData) : List String :=
  let ql := pyLower query
  (if anyKeywordIn projectKeywords ql then projectsImagesRaw fs ql d else []) ++
  (if anyKeywordIn hackathonKeywords ql then hackathonsImagesRaw fs ql d
   else [])

/-- The `relevant_sections` list as appended to, in bucket order. -/
def searchSectionsRaw (query : String) : List String :=
  let ql := pyLower query
  (if anyKeywordIn basicInfoKeywords ql then ["basic_info"] else []) ++
  (if anyKeywordIn contactKeywords ql then ["contact"] else []) ++
  (if anyKeywordIn skillsKeywords ql then ["skills"] else []) ++
  (if anyKeywordIn experienceKeywords ql then ["experience"] else []) ++
  (if anyKeywordIn educationKeywords ql then ["education"] else []) ++
  (if anyKeywordIn certificationKeywords ql then ["certifications"] else []) ++
  (if anyKeywordIn projectKeywords ql then ["projects"] else []) ++
  (if anyKeywordIn hackathonKeywords ql then ["hackathons"] else [])

/-- The `context_parts` list, in bucket order. -/
def searchContextParts (query : String) (d : PortfolioData) : List String :=
  let ql := pyLower query
  (if anyKeywordIn basicInfoKeywords ql then basicInfoContext d else []) ++
  (if anyKeywordIn contactKeywords ql then contactContext d else []) ++
  (if anyKeywordIn skillsKeywords ql then skillsContext d else []) ++
  (if anyKeywordIn experienceKeywords ql then experienceContext d else []) ++
  (if anyKeywordIn educationKeywords ql then educationContext d else []) ++
  (if anyKeywordIn certificationKeywords ql then certificationsContext d
   else []) ++
  (if anyKeywordIn projectKeywords ql then projectsContext d else []) ++
  (if anyKeywordIn hackathonKeywords ql then hackathonsContext d else [])

/-- `search_portfolio_data(query, data)`:
`("\n".join(context_parts), list(dict.fromkeys(images))[:15],
list(set(relevant_sections)))`. -/
def search_portfolio_data (fs : FileSystem) (query : String)
    (d : PortfolioData) : String × List String × List String :=
  (pyJoin "\n" (searchContextParts query d),
   (pyDedup (searchImagesRaw fs query d)).take 15,
   pyListSet (searchSectionsRaw query))

/-! ## Answer generator (`generate_response_with_gemini`,
`generate_fallback_response`) -/

/-- `generate_fallback_response(context, question)`: a fixed template when the
context is empty, otherwise a template chosen by keyword match on the
lower-cased question, with the context interpolated. -/
def generate_fallback_response (context question : String) : String :=
  if context = "" then
    "Hello! I'm K Sree Charan's portfolio assistant. I can help you learn about:\n        \n        🎯 Professional Experience at MAQ Software Solutions\n        💻 Technical Skills and Technologies\n        🚀 Projects (AgriVision, Health Buddy, Study Buddy, Sarthi, and more)\n        🏆 Hackathon Achievements and Awards\n        🎓 Education and Certifications\n        📧 Contact Information\n        \n        Please ask me about any of these topics!"
  else
    let questionLower := pyLower question
    if anyKeywordIn ["experience", "work", "job", "maq"] questionLower then
      "Based on my portfolio data, here's information about K Sree Charan's work experience:\n\n" ++ context ++ "\n\nK Sree Charan is currently working as a Full Stack Developer at MAQ Software Solutions since 2025, where he has developed 5+ web applications and improved app performance by 40%. He has also mentored 2 junior developers and works with technologies like Node.js, TypeScript, MongoDB, Express.js, AWS, and AI/ML.\n\nWould you like to know more about specific projects or skills?"
    else if anyKeywordIn ["project", "agrivision", "health", "study"] questionLower then
      "Here are K Sree Charan's key projects:\n\n" ++ context ++ "\n\nThese projects showcase expertise in full-stack development, AI/ML integration, and healthcare technology. Each project includes detailed GitHub repositories and live demonstrations.\n\nWould you like to explore any specific project in detail?"
    else if anyKeywordIn ["hackathon", "competition", "award"] questionLower then
      "K Sree Charan has an impressive track record in hackathons:\n\n" ++ context ++ "\n\nWith 8+ hackathon participations and multiple wins including DevFest, Microsoft Hackathon, and Kriyeta 3.0, K Sree Charan has demonstrated consistent excellence in competitive programming and innovation.\n\nWould you like to know more about any specific hackathon or achievement?"
    else if anyKeywordIn ["skill", "technology", "tech"] questionLower then
      "K Sree Charan's technical expertise includes:\n\n" ++ context ++ "\n\nThe skills span across frontend development (React, Next.js, TypeScript), backend technologies (Node.js, Python), databases (MongoDB, PostgreSQL), and cloud services (AWS). All skills are rated with proficiency levels for transparency.\n\nWould you like to know more about any specific technology or skill area?"
    else
      "Based on your question about K Sree Charan's portfolio:\n\n" ++ context ++ "\n\nThis information provides a comprehensive overview of the requested topic. K Sree Charan is a skilled Full Stack Developer with expertise in modern technologies, successful project delivery, and competitive programming achievements.\n\nFeel free to ask more specific questions about experience, projects, skills, or achievements!"

/-- The quota test on a caught exception's message:
`"quota" in str(e).lower() or "429" in str(e)`. -/
def quotaError (e : String) : Bool := strIn "quota" (pyLower e) || strIn "429" e

/-- `generate_response_with_gemini(context, question, relevant_sections)`.
The outbound API call is external; its outcome is the parameter `apiResult`
(`.ok text` for a successful `generate_content` call, `.error e` for a raised
exception with message `e`), and `available` models `gemini_model` being
configured (non-`None`).  The prompt is sent to the external API and does not
otherwise influence the returned value. -/
def generate_response_with_gemini (available : Bool)
    (apiResult : Except String String) (context question : String)
    (relevant_sections : List String) : String :=
  if !available then generate_fallback_response context question
  else
    match apiResult with
    | .ok text => text
    | .error e =>
        if quotaError e then generate_fallback_response context question
        else
          "I apologize, but I encountered an error while processing your request. Please try again. Error: " ++ e

/-! ## Startup initialization and `/health` -/

/-- The fallback profile `initialize_app` installs when loading fails. -/
def defaultPortfolioData : PortfolioData where
  name := "K Sree Charan"
  title := "Full Stack Developer at MAQ Software Solutions"
  experienceSummary := some
    { yearsExperience := "1+", projectsCompleted := "15+",
      technologiesKnown := "10+", hackathonsParticipated := "10+" }
  contact := some
    { email := "sreecharan9484@gmail.com", phone := "+91 9876543210",
      location := "Noida, India" }
  skills := []
  technologies := ["Python", "Machine Learning", "React", "Node.js"]
  proficiencyLegend := []
  workExperience := []
  education := []
  certifications := []
  projects := []
  hackathons := .dict "" "" "" []

/-- `initialize_app()`: keep the loaded document on success, install the
built-in default profile when `load_portfolio_data` raised (missing file,
malformed JSON, …); the process continues either way. -/
def initialize_app (loadResult : Except String PortfolioData) : PortfolioData :=
  match loadResult with
  | .ok d => d
  | .error _ => defaultPortfolioData

/-- The `portfolio_structure` object of `/health`. -/
structure PortfolioStructure where
  has_name : Bool
  has_workExperience : Bool
  has_projects : Bool
  has_hackathons : Bool
  has_skills : Bool
  has_contact : Bool
  projects_count : Nat
  hackathons_count : Nat
deriving DecidableEq

/-- The `/health` JSON body. -/
structure HealthResponse where
  status : String
  portfolio_data_loaded : Bool
  portfolio_structure : Option PortfolioStructure
  google_api_key_set : Bool
  gemini_model_ready : Bool
deriving DecidableEq

/-- `health_check()`: `portfolio_data` is `none` when unset (`None`); the
structure block is filled in only when the data is truthy (a loaded document
is a non-empty dict, which our structure model always denotes). -/
def health_check (pd : Option PortfolioData) (apiKey : Option String)
    (geminiReady : Bool) : HealthResponse where
  status := "healthy"
  portfolio_data_loaded := pd.isSome
  portfolio_structure := pd.map (fun d =>
    { has_name := d.name ≠ ""
      has_workExperience := !d.workExperience.isEmpty
      has_projects := !d.projects.isEmpty
      has_hackathons := (match d.hackathons with
        | .dict _ _ _ _ => true
        | .list es => !es.isEmpty)
      has_skills := !d.skills.isEmpty
      has_contact := d.contact.isSome
      projects_count := d.projects.length
      hackathons_count := (match d.hackathons with
        | .dict _ _ _ es => es.length
        | .list _ => 0) })
  google_api_key_set := apiKey.isSome
  gemini_model_ready := geminiReady

/-! ## The `/chat` handler -/

/-- A `/chat` response: the JSON body together with the HTTP status the
handler attaches. -/
inductive ChatResponse where
  | serverError (msg : String)
  | clientError (msg : String)
  | ok (answer : String) (images : List String) (sections : List String)
deriving DecidableEq

/-- The HTTP status code of each `/chat` outcome. -/
def ChatResponse.statusCode : ChatResponse → Nat
  | .serverError _ => 500
  | .clientError _ => 400
  | .ok _ _ _ => 200

/-- The generic context the handler substitutes when the search produced an
empty context. -/
def genericContext : String :=
  "I can help you with information about K Sree Charan's skills, experience, education, hackathons, and projects."

/-- The `/chat` handler.  `pd` is the global `portfolio_data` (`none` when
unset), `req` the parsed request body's `question` field (`none` when the body
is missing/not JSON or has no `question` key).  The module-level
`search_portfolio_data` and `generate_response_with_gemini` calls are the
parameters `search` and `gen`, so that theorems can quantify over them:
a result that holds for every `search`/`gen` is produced without consulting
either. -/
def chat (search : String → PortfolioData → String × List String × List String)
    (gen : String → String → List String → String)
    (pd : Option PortfolioData) (req : Option String) : ChatResponse :=
  match pd with
  | none =>
      .serverError "Portfolio data not loaded. Please check the server configuration."
  | some d =>
      match req with
      | none => .clientError "Question is required"
      | some rawQuestion =>
          let query := pyStrip rawQuestion
          if query = "" then .clientError "Question cannot be empty"
          else
            let res := search query d
            let context := if res.1 = "" then genericContext else res.1
            .ok (gen context query res.2.2) res.2.1 res.2.2

/-! ## Embedding matcher (`test.py`) -/

/-- A text chunk of `preprocess_data`: the embedded `content` plus the
metadata keys (`type` and the per-type tag). -/
structure TextChunk where
  content : String
  type_ : String
  tag : String
deriving DecidableEq

/-- The external sentence-embedding model together with numpy's
floating-point cosine-similarity evaluation, as deterministic functions:
`encode` maps a text to its embedding and `cosSim a b` is the value of
`np.dot(a, b) / (np.linalg.norm(a) * np.linalg.norm(b))`.  Their numeric
values are produced by external floating-point code, so they are parameters
of the model; what the ranking logic relies on is only that both are
functions of their arguments. -/
structure EmbModel where
  encode : String → List ℚ
  cosSim : List ℚ → List ℚ → ℚ

/-- The similarity score of chunk `i` against the query:
`np.dot(chunk_embeddings, query_embedding) / (norms…)`, entry `i`. -/
def chunkScore (m : EmbModel) (query : String) (text_chunks : List TextChunk)
    (i : Fin text_chunks.length) : ℚ :=
  m.cosSim (m.encode (text_chunks.get i).content) (m.encode query)

/-- The comparison `np.argsort` sorts indices by: ascending score, ties
broken by the original index. -/
def argLe {n : Nat} (score : Fin n → ℚ) (i j : Fin n) : Prop :=
  score i < score j ∨ (score i = score j ∧ i ≤ j)

instance argLe.instDecidableRel {n : Nat} (score : Fin n → ℚ) :
    DecidableRel (argLe score) := fun i j =>
  inferInstanceAs (Decidable (_ ∨ _))

/-- `np.argsort(similarities)`: the indices sorted by ascending score.
numpy's default sort leaves the order of exactly-equal entries
implementation-defined but deterministic (and its small-array insertion sort
is stable); we model it as the stable ascending argsort (numpy's
`kind='stable'`), i.e. ties are broken by the original index, which makes
the sorted index list unique (the comparison is total, transitive and
antisymmetric) and lets an insertion sort compute it. -/
def npArgsort {n : Nat} (score : Fin n → ℚ) : List (Fin n) :=
  List.insertionSort (argLe score) (List.finRange n)

/-- `np.argsort(similarities)[-5:][::-1]`: the last `min 5 n` indices of the
ascending argsort, reversed. -/
def topIndices (m : EmbModel) (query : String) (text_chunks : List TextChunk) :
    List (Fin text_chunks.length) :=
  ((npArgsort (chunkScore m query text_chunks)).drop
    (text_chunks.length - 5)).reverse

/-- `find_similar_content(query, text_chunks, original_data, model)` from
`test.py`: empty for an empty chunk list, else the chunks at the top
indices.  `original_data` is accepted and unused, as in the source. -/
def find_similar_content (query : String) (text_chunks : List TextChunk)
    (original_data : PortfolioData) (m : EmbModel) : List TextChunk :=
  if text_chunks.isEmpty then []
  else (topIndices m query text_chunks).map text_chunks.get

/-! ## Lemmas about `pyDedup` -/

theorem pyDedupAux_sublist {α : Type} [DecidableEq α] :
    ∀ (l seen : List α), pyDedupAux l seen <+ l
  | [], _ => List.Sublist.refl []
  | x :: xs, seen => by
      rw [pyDedupAux]
      by_cases h : x ∈ seen
      · rw [if_pos h]
        exact (pyDedupAux_sublist xs seen).cons x
      · rw [if_neg h]
        exact (pyDedupAux_sublist xs (x :: seen)).cons₂ x

theorem mem_pyDedupAux {α : Type} [DecidableEq α] (a : α) :
    ∀ (l seen : List α), a ∈ pyDedupAux l seen ↔ a ∈ l ∧ a ∉ seen
  | [], seen => by simp [pyDedupAux]
  | x :: xs, seen => by
      rw [pyDedupAux]
      by_cases h : x ∈ seen
      · rw [if_pos h, mem_pyDedupAux a xs seen]
        constructor
        · exact fun ⟨h1, h2⟩ => ⟨List.mem_cons_of_mem x h1, h2⟩
        · rintro ⟨h1, h2⟩
          rcases List.mem_cons.mp h1 with rfl | h1'
          · exact absurd h h2
          · exact ⟨h1', h2⟩
      · rw [if_neg h]
        by_cases hax : a = x
        · subst hax; simp [h]
        · simp only [List.mem_cons, hax, false_or]
          rw [mem_pyDedupAux a xs (x :: seen)]
          simp [hax]

theorem pyDedupAux_nodup {α : Type} [DecidableEq α] :
    ∀ (l seen : List α), (pyDedupAux l seen).Nodup
  | [], _ => List.nodup_nil
  | x :: xs, seen => by
      rw [pyDedupAux]
      by_cases h : x ∈ seen
      · rw [if_pos h]
        exact pyDedupAux_nodup xs seen
      · rw [if_neg h]
        refine List.nodup_cons.mpr ⟨fun hmem => ?_, pyDedupAux_nodup xs _⟩
        exact ((mem_pyDedupAux x xs (x :: seen)).mp hmem).2 (List.mem_cons_self x seen)

theorem pyDedupAux_prefix_mono {α : Type} [DecidableEq α] :
    ∀ {u v : List α} (seen : List α), u <+: v →
      pyDedupAux u seen <+: pyDedupAux v seen
  | [], v, seen, _ => by simp [pyDedupAux]
  | x :: u, v, seen, h => by
      obtain ⟨t, rfl⟩ := h
      rw [List.cons_append, pyDedupAux, pyDedupAux]
      by_cases hx : x ∈ seen
      · rw [if_pos hx, if_pos hx]
        exact pyDedupAux_prefix_mono seen ⟨t, rfl⟩
      · rw [if_neg hx, if_neg hx]
        exact (List.prefix_cons_inj x).mpr
          (pyDedupAux_prefix_mono (x :: seen) ⟨t, rfl⟩)

theorem pyDedup_sublist {α : Type} [DecidableEq α] (l : List α) :
    pyDedup l <+ l :=
  pyDedupAux_sublist l []

theorem pyDedup_nodup {α : Type} [DecidableEq α] (l : List α) :
    (pyDedup l).Nodup :=
  pyDedupAux_nodup l []

theorem mem_pyDedup {α : Type} [DecidableEq α] (a : α) (l : List α) :
    a ∈ pyDedup l ↔ a ∈ l := by
  rw [pyDedup, mem_pyDedupAux]
  simp

/-- `pyDedup` is monotone with respect to the prefix order: deduplicating a
longer prefix of the input only appends further elements.  Together with
`pyDedup_sublist`, `pyDedup_nodup` and `mem_pyDedup` this states that the
result lists the first occurrences of the input, in first-occurrence order. -/
theorem pyDedup_prefix_mono {α : Type} [DecidableEq α] {u v : List α}
    (h : u <+: v) : pyDedup u <+: pyDedup v :=
  pyDedupAux_prefix_mono [] h

/-! ## Claim C1 -/

/-- **C1.** For every query over every profile document, the images list
returned by `search_portfolio_data` has no duplicates and length at most 15;
it is exactly the first 15 entries of the first-occurrence deduplication of
the collected paths, which is an order-preserving (sublist), prefix-monotone,
membership-preserving restriction of the collected list. -/
theorem search_images_dedup_capped (fs : FileSystem) (query : String)
    (d : PortfolioData) (n : Nat) (s : String) :
    ((search_portfolio_data fs query d).2.1).Nodup ∧
    ((search_portfolio_data fs query d).2.1).length ≤ 15 ∧
    (search_portfolio_data fs query d).2.1 =
      (pyDedup (searchImagesRaw fs query d)).take 15 ∧
    pyDedup (searchImagesRaw fs query d) <+ searchImagesRaw fs query d ∧
    pyDedup ((searchImagesRaw fs query d).take n) <+:
      pyDedup (searchImagesRaw fs query d) ∧
    (s ∈ pyDedup (searchImagesRaw fs query d) ↔
      s ∈ searchImagesRaw fs query d) := by
  refine ⟨?_, ?_, rfl, pyDedup_sublist _, ?_, mem_pyDedup _ _⟩
  · exact (List.take_sublist _ _).nodup (pyDedup_nodup _)
  · simp only [search_portfolio_data, List.length_take]
    omega
  · exact pyDedup_prefix_mono (List.take_prefix n _)

/-! ## Claim C5 -/

/-- **C5.** For every request whose `question` strips to the empty string,
the `/chat` handler answers the 400 response "Question cannot be empty".
The conclusion holds for *every* `search` and `gen` function, so the handler
produces it without consulting `search_portfolio_data` or the generative
API. -/
theorem chat_empty_question_400
    (search : String → PortfolioData → String × List String × List String)
    (gen : String → String → List String → String)
    (d : PortfolioData) (q : String) (h : pyStrip q = "") :
    chat search gen (some d) (some q) =
      .clientError "Question cannot be empty" ∧
    (chat search gen (some d) (some q)).statusCode = 400 := by
  simp [chat, h, ChatResponse.statusCode]

/-- Witness for C5 at the whitespace-only question `" "`. -/
theorem chat_empty_question_400_witness :
    pyStrip " " = "" ∧
    (chat (fun _ _ => ("", [], [])) (fun _ _ _ => "")
        (some defaultPortfolioData) (some " ") =
      .clientError "Question cannot be empty" ∧
    (chat (fun _ _ => ("", [], [])) (fun _ _ _ => "")
        (some defaultPortfolioData) (some " ")).statusCode = 400) :=
  ⟨by decide, chat_empty_question_400 _ _ _ _ (by decide)⟩

/-! ## Claim C6 -/

/-- **C6.** When the generative call raises with a quota-indicating message
(`"quota"` case-insensitively, or `"429"`), the returned answer is exactly
`generate_fallback_response context question` — the canned template selected
by keyword match on the question, a value computed from the context and
question alone — and it is the same for every such error message, so the raw
error text is never interpolated into it. -/
theorem gemini_quota_fallback (context question e : String)
    (rs : List String) (h : quotaError e = true) :
    generate_response_with_gemini true (.error e) context question rs =
      generate_fallback_response context question ∧
    ∀ e2 : String, quotaError e2 = true →
      generate_response_with_gemini true (.error e) context question rs =
        generate_response_with_gemini true (.error e2) context question rs := by
  constructor
  · simp [generate_response_with_gemini, h]
  · intro e2 h2
    simp [generate_response_with_gemini, h, h2]

/-- Witness for C6 at the error message `"429"`. -/
theorem gemini_quota_fallback_witness :
    quotaError "429" = true ∧
    (generate_response_with_gemini true (.error "429") "ctx" "question" [] =
      generate_fallback_response "ctx" "question" ∧
    ∀ e2 : String, quotaError e2 = true →
      generate_response_with_gemini true (.error "429") "ctx" "question" [] =
        generate_response_with_gemini true (.error e2) "ctx" "question" []) :=
  ⟨by decide, gemini_quota_fallback "ctx" "question" "429" [] (by decide)⟩

/-! ## Claim C7 -/

/-- **C7.** When loading the portfolio JSON fails (missing file, malformed
JSON — any raised error `e`), startup initialization installs the built-in
default profile and returns normally; `/health` on that state reports
`portfolio_data_loaded: true` and `projects_count: 0`. -/
theorem init_failure_health (e : String) (apiKey : Option String)
    (ready : Bool) :
    initialize_app (.error e) = defaultPortfolioData ∧
    (health_check (some (initialize_app (.error e)))
        apiKey ready).portfolio_data_loaded = true ∧
    ((health_check (some (initialize_app (.error e)))
        apiKey ready).portfolio_structure.map
      PortfolioStructure.projects_count) = some 0 := by
  refine ⟨rfl, rfl, ?_⟩
  simp [health_check, initialize_app, defaultPortfolioData]

/-! ## Section-membership helpers -/

theorem mem_guardSingleton {b : Bool} {t x : String} :
    (x ∈ if b then [t] else []) ↔ (b = true ∧ x = t) := by
  cases b <;> simp

/-- Membership in the returned section-tag list, bucket by bucket. -/
theorem mem_searchSections (fs : FileSystem) (query : String)
    (d : PortfolioData) (t : String) :
    t ∈ (search_portfolio_data fs query d).2.2 ↔
      ((anyKeywordIn basicInfoKeywords (pyLower query) ∧ t = "basic_info") ∨
       (anyKeywordIn contactKeywords (pyLower query) ∧ t = "contact") ∨
       (anyKeywordIn skillsKeywords (pyLower query) ∧ t = "skills") ∨
       (anyKeywordIn experienceKeywords (pyLower query) ∧ t = "experience") ∨
       (anyKeywordIn educationKeywords (pyLower query) ∧ t = "education") ∨
       (anyKeywordIn certificationKeywords (pyLower query) ∧
         t = "certifications") ∨
       (anyKeywordIn projectKeywords (pyLower query) ∧ t = "projects") ∨
       (anyKeywordIn hackathonKeywords (pyLower query) ∧ t = "hackathons")) := by
  show t ∈ pyListSet (searchSectionsRaw query) ↔ _
  rw [pyListSet, mem_pyDedup, searchSectionsRaw]
  simp only [List.mem_append, mem_guardSingleton, or_assoc]

/-- A keyword of the list that is a substring of the lower-cased query makes
`anyKeywordIn` true. -/
theorem anyKeywordIn_of_mem {w : String} {ks : List String} (hw : w ∈ ks)
    {ql : String} (h : w.data <:+: ql.data) : anyKeywordIn ks ql = true := by
  rw [anyKeywordIn, List.any_eq_true]
  exact ⟨w, hw, by simpa [strIn] using h⟩

/-! ## Claim C4 -/

/-- **C4.** Every query whose lower-cased form contains `"hackathon"` gets
the `'hackathons'` tag among the relevant sections, and gets `'education'`
only if one of the education keywords (`education`, `degree`, `university`,
`college`, `qualification`) also occurs as a substring of the lower-cased
query. -/
theorem hackathon_sections (fs : FileSystem) (query : String)
    (d : PortfolioData)
    (h : ("hackathon".data <:+: (pyLower query).data)) :
    "hackathons" ∈ (search_portfolio_data fs query d).2.2 ∧
    ("education" ∈ (search_portfolio_data fs query d).2.2 →
      anyKeywordIn educationKeywords (pyLower query) = true) := by
  constructor
  · rw [mem_searchSections]
    refine Or.inr (Or.inr (Or.inr (Or.inr (Or.inr (Or.inr (Or.inr ⟨?_, rfl⟩))))))
    exact anyKeywordIn_of_mem (by simp [hackathonKeywords]) h
  · intro hmem
    rw [mem_searchSections] at hmem
    rcases hmem with h1 | h1 | h1 | h1 | h1 | h1 | h1 | h1 <;>
      first
        | (exact h1.1)
        | (exact absurd h1.2 (by decide))

/-- Witness for C4 at the query `"hackathon"` over the default profile. -/
theorem hackathon_sections_witness :
    ("hackathon".data <:+:
      (pyLower "Tell me about a Hackathon result").data) ∧
    ("hackathons" ∈ (search_portfolio_data ⟨fun _ _ => false, fun _ _ => []⟩
        "Tell me about a Hackathon result" defaultPortfolioData).2.2 ∧
    ("education" ∈ (search_portfolio_data ⟨fun _ _ => false, fun _ _ => []⟩
        "Tell me about a Hackathon result" defaultPortfolioData).2.2 →
      anyKeywordIn educationKeywords
        (pyLower "Tell me about a Hackathon result") = true)) :=
  ⟨by decide, hackathon_sections _ _ defaultPortfolioData (by decide)⟩

/-! ## Claim C9 -/

/-- **C9.** Bucket matching is contiguous-substring containment on the
lower-cased query: each bucket's tag is in the returned sections iff some
keyword of that bucket is an infix of the lower-cased query.  In particular a
query containing `"network"` matches the work-experience bucket (its keyword
`"work"` occurs inside `"network"`) and a query containing `"code"` matches
the hackathons bucket (`"code"` is itself a hackathon keyword). -/
theorem bucket_match_is_substring (fs : FileSystem) (query : String)
    (d : PortfolioData) :
    ("basic_info" ∈ (search_portfolio_data fs query d).2.2 ↔
      anyKeywordIn basicInfoKeywords (pyLower query) = true) ∧
    ("contact" ∈ (search_portfolio_data fs query d).2.2 ↔
      anyKeywordIn contactKeywords (pyLower query) = true) ∧
    ("skills" ∈ (search_portfolio_data fs query d).2.2 ↔
      anyKeywordIn skillsKeywords (pyLower query) = true) ∧
    ("experience" ∈ (search_portfolio_data fs query d).2.2 ↔
      anyKeywordIn experienceKeywords (pyLower query) = true) ∧
    ("education" ∈ (search_portfolio_data fs query d).2.2 ↔
      anyKeywordIn educationKeywords (pyLower query) = true) ∧
    ("certifications" ∈ (search_portfolio_data fs query d).2.2 ↔
      anyKeywordIn certificationKeywords (pyLower query) = true) ∧
    ("projects" ∈ (search_portfolio_data fs query d).2.2 ↔
      anyKeywordIn projectKeywords (pyLower query) = true) ∧
    ("hackathons" ∈ (search_portfolio_data fs query d).2.2 ↔
      anyKeywordIn hackathonKeywords (pyLower query) = true) ∧
    ("network".data <:+: (pyLower query).data →
      "experience" ∈ (search_portfolio_data fs query d).2.2) ∧
    ("code".data <:+: (pyLower query).data →
      "hackathons" ∈ (search_portfolio_data fs query d).2.2) := by
  have base : ∀ t, t ∈ (search_portfolio_data fs query d).2.2 ↔ _ :=
    fun t => mem_searchSections fs query d t
  refine ⟨?_, ?_, ?_, ?_, ?_, ?_, ?_, ?_, ?_, ?_⟩
  · rw [base]; simp
  · rw [base]; simp
  · rw [base]; simp
  · rw [base]; simp
  · rw [base]; simp
  · rw [base]; simp
  · rw [base]; simp
  · rw [base]; simp
  · intro h
    rw [base]; simp
    exact anyKeywordIn_of_mem (w := "work") (by simp [experienceKeywords])
      (List.IsInfix.trans (by decide) h)
  · intro h
    rw [base]; simp
    exact anyKeywordIn_of_mem (w := "code") (by simp [hackathonKeywords]) h

/-- Witness for C9 at a query containing both `"network"` and `"code"`. -/
theorem bucket_match_is_substring_witness :
    ("network".data <:+: (pyLower "my network code question").data) ∧
    ("code".data <:+: (pyLower "my network code question").data) ∧
    "experience" ∈ (search_portfolio_data ⟨fun _ _ => false, fun _ _ => []⟩
      "my network code question" defaultPortfolioData).2.2 ∧
    "hackathons" ∈ (search_portfolio_data ⟨fun _ _ => false, fun _ _ => []⟩
      "my network code question" defaultPortfolioData).2.2 :=
  ⟨by decide, by decide,
   ((bucket_match_is_substring _ _ defaultPortfolioData).2.2.2.2.2.2.2.2.1
     (by decide)),
   ((bucket_match_is_substring _ _ defaultPortfolioData).2.2.2.2.2.2.2.2.2
     (by decide))⟩

/-! ## Claim C8 -/

/-- The disjunction of all eight bucket guards of `search_portfolio_data`. -/
def anyBucketMatch (ql : String) : Bool :=
  anyKeywordIn basicInfoKeywords ql || anyKeywordIn contactKeywords ql ||
  anyKeywordIn skillsKeywords ql || anyKeywordIn experienceKeywords ql ||
  anyKeywordIn educationKeywords ql || anyKeywordIn certificationKeywords ql ||
  anyKeywordIn projectKeywords ql || anyKeywordIn hackathonKeywords ql

/-- When no bucket guard fires, the search returns an empty context, empty
image list and empty section list. -/
theorem search_empty_of_no_match (fs : FileSystem) (q : String)
    (d : PortfolioData) (h : anyBucketMatch (pyLower q) = false) :
    search_portfolio_data fs q d = ("", [], []) := by
  simp only [anyBucketMatch, Bool.or_eq_false_iff] at h
  obtain ⟨⟨⟨⟨⟨⟨⟨h1, h2⟩, h3⟩, h4⟩, h5⟩, h6⟩, h7⟩, h8⟩ := h
  simp [search_portfolio_data, searchContextParts, searchImagesRaw,
    searchSectionsRaw, pyListSet, pyDedup, pyJoin, h1, h2, h3, h4, h5, h6,
    h7, h8]
  exact ⟨rfl, rfl⟩

/-- **C8.** A query matching no topic bucket yields an empty context, image
list and section list from `search_portfolio_data` (the empty query matches
no bucket, so it is covered); when such a query reaches the `/chat` handler
(i.e. it is non-empty after stripping), the handler substitutes the fixed
generic context before invoking the answer generator `gen`. -/
theorem no_bucket_match_fallback (fs : FileSystem)
    (gen : String → String → List String → String)
    (d : PortfolioData) (q : String)
    (h0 : anyBucketMatch (pyLower q) = false)
    (h1 : anyBucketMatch (pyLower (pyStrip q)) = false) :
    search_portfolio_data fs q d = ("", [], []) ∧
    (pyStrip q ≠ "" →
      chat (search_portfolio_data fs) gen (some d) (some q) =
        .ok (gen genericContext (pyStrip q) []) [] []) := by
  refine ⟨search_empty_of_no_match fs q d h0, fun hne => ?_⟩
  have hs := search_empty_of_no_match fs (pyStrip q) d h1
  simp [chat, hne, hs, genericContext]

/-- Witness for C8 at the no-keyword query `"zzzz"`. -/
theorem no_bucket_match_fallback_witness :
    anyBucketMatch (pyLower "zzzz") = false ∧
    anyBucketMatch (pyLower (pyStrip "zzzz")) = false ∧
    (search_portfolio_data ⟨fun _ _ => false, fun _ _ => []⟩ "zzzz"
        defaultPortfolioData = ("", [], []) ∧
    (pyStrip "zzzz" ≠ "" →
      chat (search_portfolio_data ⟨fun _ _ => false, fun _ _ => []⟩)
          (fun _ _ _ => "") (some defaultPortfolioData) (some "zzzz") =
        .ok ((fun _ _ _ => "") genericContext (pyStrip "zzzz") ([] : List String))
          [] [])) :=
  ⟨by decide, by decide,
   no_bucket_match_fallback _ _ defaultPortfolioData "zzzz"
     (by decide) (by decide)⟩

/-! ## Ordering lemmas for the embedding matcher -/

instance argLe.instIsTrans {n : Nat} (score : Fin n → ℚ) :
    IsTrans (Fin n) (argLe score) where
  trans a b c hab hbc := by
    rcases hab with h1 | ⟨h1, h1'⟩ <;> rcases hbc with h2 | ⟨h2, h2'⟩
    · exact Or.inl (h1.trans h2)
    · exact Or.inl (h2 ▸ h1)
    · exact Or.inl (h1 ▸ h2)
    · exact Or.inr ⟨h1.trans h2, h1'.trans h2'⟩

instance argLe.instIsTotal {n : Nat} (score : Fin n → ℚ) :
    IsTotal (Fin n) (argLe score) where
  total a b := by
    rcases lt_trichotomy (score a) (score b) with h | h | h
    · exact Or.inl (Or.inl h)
    · rcases le_total a b with hab | hab
      · exact Or.inl (Or.inr ⟨h, hab⟩)
      · exact Or.inr (Or.inr ⟨h.symm, hab⟩)
    · exact Or.inr (Or.inl h)

/-- The ascending argsort is pairwise ordered by its comparison. -/
theorem npArgsort_pairwise {n : Nat} (score : Fin n → ℚ) :
    (npArgsort score).Pairwise (argLe score) :=
  List.sorted_insertionSort (argLe score) (List.finRange n)

/-- The final index list is pairwise ordered by the flipped comparison. -/
theorem topIndices_pairwise (m : EmbModel) (q : String)
    (chunks : List TextChunk) :
    (topIndices m q chunks).Pairwise
      (fun i j => argLe (chunkScore m q chunks) j i) := by
  rw [topIndices]
  rw [List.pairwise_reverse]
  exact (npArgsort_pairwise (chunkScore m q chunks)).sublist
    (List.drop_sublist _ _)

/-- In a pairwise-ordered list, two elements not related by the relation
occur in the opposite order: `[b, a]` is a sublist. -/
theorem pair_sublist_of_pairwise {α : Type} {R : α → α → Prop} :
    ∀ {l : List α}, l.Pairwise R → ∀ {a b : α}, a ∈ l → b ∈ l → a ≠ b →
      ¬ R a b → [b, a] <+ l
  | [], _, _, _, ha, _, _, _ => absurd ha (List.not_mem_nil _)
  | x :: xs, hp, a, b, ha, hb, hab, hnR => by
      rw [List.pairwise_cons] at hp
      rcases List.mem_cons.mp ha with rfl | ha'
      · rcases List.mem_cons.mp hb with rfl | hb'
        · exact absurd rfl hab
        · exact absurd (hp.1 b hb') hnR
      · rcases List.mem_cons.mp hb with rfl | hb'
        · exact (List.singleton_sublist.mpr ha').cons₂ b
        · exact (pair_sublist_of_pairwise hp.2 ha' hb' hab hnR).cons x

/-! ## Claim C2 (corrected) -/

/-- **C2 (amended).** `find_similar_content` returns the chunks at
`topIndices`, whose scores are weakly descending; two chunks with exactly
equal scores appear in *reversed* input order (the ascending argsort, which
breaks ties by input position, is reversed by `[::-1]`); and the result is a
deterministic function of the query, chunk list and model functions, so two
runs on identical inputs produce the same ordering. -/
theorem find_similar_content_ranking (q : String) (chunks : List TextChunk)
    (d : PortfolioData) (m : EmbModel) :
    ((topIndices m q chunks).map (chunkScore m q chunks)).Sorted
      (fun a b : ℚ => b ≤ a) ∧
    find_similar_content q chunks d m =
      (if chunks.isEmpty then []
       else (topIndices m q chunks).map chunks.get) ∧
    (∀ i j : Fin chunks.length, i ∈ topIndices m q chunks →
      j ∈ topIndices m q chunks →
      chunkScore m q chunks i = chunkScore m q chunks j → i.val < j.val →
      [j, i] <+ topIndices m q chunks) ∧
    (∀ m2 : EmbModel, m2.encode = m.encode → m2.cosSim = m.cosSim →
      find_similar_content q chunks d m2 = find_similar_content q chunks d m) := by
  refine ⟨?_, rfl, ?_, ?_⟩
  · rw [List.Sorted, List.pairwise_map]
    refine (topIndices_pairwise m q chunks).imp ?_
    intro i j hij
    rcases hij with h | ⟨h, _⟩
    · exact le_of_lt h
    · exact le_of_eq h
  · intro i j hi hj hscore hij
    refine pair_sublist_of_pairwise (topIndices_pairwise m q chunks) hi hj
      (fun hij' => absurd (congrArg Fin.val hij') (Nat.ne_of_lt hij)) ?_
    rw [argLe, not_or, not_and]
    constructor
    · rw [hscore]; exact lt_irrefl _
    · intro _
      rw [Fin.le_def]
      omega
  · intro m2 he hc
    obtain ⟨e1, c1⟩ := m
    obtain ⟨e2, c2⟩ := m2
    simp only [EmbModel.mk.injEq] at *
    cases he
    cases hc
    rfl

/-- Two chunks with identical content (hence identical embeddings and
scores) for the tie counterexample. -/
def tieChunkA : TextChunk := ⟨"same text", "project", "a"⟩

def tieChunkB : TextChunk := ⟨"same text", "project", "b"⟩

def tieChunks : List TextChunk := [tieChunkA, tieChunkB]

/-- A concrete model instance: every text embeds to `[1]` and every
similarity evaluates to `1`. -/
def tieModel : EmbModel := ⟨fun _ => [1], fun _ _ => 1⟩

def tieIdx0 : Fin tieChunks.length := ⟨0, by decide⟩

def tieIdx1 : Fin tieChunks.length := ⟨1, by decide⟩

/-- **C2 counterexample.** On two chunks with identical content the scores
are exactly equal, yet `find_similar_content` returns them in *reversed*
input order, not the original input order the claim asserts. -/
theorem find_similar_content_tie_counterexample :
    chunkScore tieModel "q" tieChunks tieIdx0 =
      chunkScore tieModel "q" tieChunks tieIdx1 ∧
    find_similar_content "q" tieChunks defaultPortfolioData
      tieModel = [tieChunkB, tieChunkA] ∧
    ([tieChunkB, tieChunkA] : List TextChunk) ≠ [tieChunkA, tieChunkB] := by
  refine ⟨rfl, by decide, by decide⟩

/-- Witness for C2 applying the amended theorem at the tie instance: the two
equal-score indices `0 < 1` both occur in the top list and come out in the
order `[1, 0]`. -/
theorem find_similar_content_ranking_witness :
    (tieIdx0 ∈ topIndices tieModel "q" tieChunks) ∧
    (tieIdx1 ∈ topIndices tieModel "q" tieChunks) ∧
    chunkScore tieModel "q" tieChunks tieIdx0 =
      chunkScore tieModel "q" tieChunks tieIdx1 ∧
    tieIdx0.val < tieIdx1.val ∧
    [tieIdx1, tieIdx0] <+ topIndices tieModel "q" tieChunks :=
  ⟨by decide, by decide, rfl, by decide,
   (find_similar_content_ranking "q" tieChunks
       defaultPortfolioData tieModel).2.2.1 tieIdx0 tieIdx1 (by decide)
     (by decide) rfl (by decide)⟩

/-! ## Claim C3 -/

/-- **C3.** `find_similar_content` returns exactly `min 5 n` chunks for a
chunk list of length `n`, whatever the scores (no threshold is applied), and
the empty chunk list yields the empty result. -/
theorem find_similar_content_count (q : String) (chunks : List TextChunk)
    (d : PortfolioData) (m : EmbModel) :
    (find_similar_content q chunks d m).length = min 5 chunks.length ∧
    find_similar_content q [] d m = [] := by
  refine ⟨?_, rfl⟩
  by_cases hc : chunks.isEmpty
  · rw [find_similar_content, if_pos hc]
    rw [List.isEmpty_iff] at hc
    simp [hc]
  · rw [find_similar_content, if_neg hc, List.length_map, topIndices,
      List.length_reverse, List.length_drop, npArgsort,
      List.length_insertionSort, List.length_finRange]
    omega

/-! ## Claim C10 -/

/-- Every path `get_image_paths` returns is
`"/<sec>/<subfolder>/<file name>"` for a listed regular file whose
lower-cased suffix is an image extension. -/
theorem mem_get_image_paths {fs : FileSystem} {sec sub p : String}
    (hp : p ∈ get_image_paths fs sec sub) :
    ∃ nm, p = "/" ++ sec ++ "/" ++ sub ++ "/" ++ nm ∧ isImageFile nm = true := by
  rw [get_image_paths] at hp
  by_cases hd : fs.dirExists sec sub
  · rw [if_pos hd, pySorted, List.mem_insertionSort, List.mem_filterMap] at hp
    obtain ⟨e, _, he⟩ := hp
    by_cases hf : e.isFile && isImageFile e.name
    · rw [if_pos hf] at he
      obtain ⟨_, h2⟩ := Bool.and_eq_true_iff.mp hf
      exact ⟨e.name, (Option.some.injEq _ _).mp he |>.symm, h2⟩
    · rw [if_neg hf] at he
      exact absurd he (Option.noConfusion)
  · rw [if_neg hd] at hp
    exact absurd hp (List.not_mem_nil p)

/-- `get_image_paths` output is sorted. -/
theorem get_image_paths_sorted (fs : FileSystem) (sec sub : String) :
    (get_image_paths fs sec sub).Sorted (fun a b : String => a ≤ b) := by
  rw [get_image_paths]
  by_cases hd : fs.dirExists sec sub
  · rw [if_pos hd]
    exact List.sorted_insertionSort _ _
  · rw [if_neg hd]
    exact List.sorted_nil

/-- **C10.** Every element of the returned images list is a path
`"/projects/<folder>/<filename>"` or `"/hackathons/<folder>/<filename>"`
whose filename's lower-cased extension is one of `.jpg`, `.jpeg`, `.png`,
`.gif`, `.webp`; and within each resolved folder, the collected paths
(`get_image_paths` output) are in sorted order. -/
theorem search_images_path_shape (fs : FileSystem) (query : String)
    (d : PortfolioData) (p : String)
    (hp : p ∈ (search_portfolio_data fs query d).2.1) :
    ((∃ folder nm, p = "/projects/" ++ folder ++ "/" ++ nm ∧
        isImageFile nm = true) ∨
     (∃ folder nm, p = "/hackathons/" ++ folder ++ "/" ++ nm ∧
        isImageFile nm = true)) ∧
    ∀ sec sub, (get_image_paths fs sec sub).Sorted (fun a b : String => a ≤ b) := by
  refine ⟨?_, fun sec sub => get_image_paths_sorted fs sec sub⟩
  replace hp : p ∈ searchImagesRaw fs query d :=
    (mem_pyDedup p _).mp ((List.take_sublist 15 _).mem hp)
  rw [searchImagesRaw, List.mem_append] at hp
  rcases hp with hp | hp
  · left
    by_cases hg : anyKeywordIn projectKeywords (pyLower query)
    · rw [if_pos hg, projectsImagesRaw, List.mem_flatMap] at hp
      obtain ⟨proj, _, hproj⟩ := hp
      dsimp only at hproj
      rcases hm : firstFolder project_folder_mappings (pyLower query)
          (pyReplaceChar (pyLower proj.name) ' ' '-') with _ | folder
      · rw [hm] at hproj
        exact absurd hproj (List.not_mem_nil p)
      · rw [hm] at hproj
        obtain ⟨nm, hnm, himg⟩ := mem_get_image_paths hproj
        exact ⟨folder, nm, by rw [hnm]; rfl, himg⟩
    · rw [if_neg hg] at hp
      exact absurd hp (List.not_mem_nil p)
  · right
    by_cases hg : anyKeywordIn hackathonKeywords (pyLower query)
    · rw [if_pos hg, hackathonsImagesRaw, List.mem_flatMap] at hp
      obtain ⟨ev, _, hev⟩ := hp
      dsimp only at hev
      rcases hm : firstFolder hackathon_folder_mappings (pyLower query)
          (pyReplaceChar (pyLower ev.event) ' ' '-') with _ | folder
      · rw [hm] at hev
        exact absurd hev (List.not_mem_nil p)
      · rw [hm] at hev
        obtain ⟨nm, hnm, himg⟩ := mem_get_image_paths hev
        exact ⟨folder, nm, by rw [hnm]; rfl, himg⟩
    · rw [if_neg hg] at hp
      exact absurd hp (List.not_mem_nil p)

/-- A sample profile with one project, for the C10 witness. -/
def sampleProject : Project :=
  { name := "AgriVision", category := "AI", description := "Crop analysis",
    duration := "3 months", teamSize := "4", technologies := [],
    features := [], githubLink := "", deploymentLink := "" }

def samplePortfolioData : PortfolioData :=
  { defaultPortfolioData with projects := [sampleProject] }

/-- A sample disk state: one image file under `projects/agrivision`. -/
def sampleFs : FileSystem where
  dirExists := fun sec sub => sec = "projects" && sub = "agrivision"
  listDir := fun sec sub =>
    if sec = "projects" && sub = "agrivision" then [⟨"a.jpg", true⟩] else []

/-- Witness for C10 at the query `"agrivision"` over the sample profile and
disk state. -/
theorem search_images_path_shape_witness :
    ("/projects/agrivision/a.jpg" ∈
      (search_portfolio_data sampleFs "agrivision" samplePortfolioData).2.1) ∧
    (((∃ folder nm, "/projects/agrivision/a.jpg" =
          "/projects/" ++ folder ++ "/" ++ nm ∧ isImageFile nm = true) ∨
      (∃ folder nm, "/projects/agrivision/a.jpg" =
          "/hackathons/" ++ folder ++ "/" ++ nm ∧ isImageFile nm = true)) ∧
     ∀ sec sub, (get_image_paths sampleFs sec sub).Sorted
       (fun a b : String => a ≤ b)) :=
  ⟨by decide,
   search_images_path_shape sampleFs "agrivision" samplePortfolioData
     "/projects/agrivision/a.jpg" (by decide)⟩

end Portfolio
